import Mathlib

/-!
Shallow embedding of the session and game-state engine of the Cosmic Clash
client (src/src/App.tsx).  The stateful React hooks are modelled as pure
functions over an explicit `EngineState`; the external effects (wallet
provider presence, ledger submission outcome, localStorage write outcome)
and the random draws (lucky number, fortune amount, opponent element, win
coin-flip) are passed in as explicit parameters, mirroring the injectable
random / effect sources.  JS numbers holding integers are modelled as `Int`,
with `Math.floor (a / b)` rendered as `Int.fdiv a b` and `Math.max` as `max`.
-/

namespace CosmicClash

/-- Element enumeration, from `type ElementType` in App.tsx. -/
inductive ElementType
  | Fire
  | Water
  | Air
  | Earth
deriving DecidableEq, Repr

/-- View enumeration, from `type GameView` in App.tsx; the source's `match`
view is named `matchView` here because `match` is a Lean keyword. -/
inductive GameView
  | connect
  | create
  | dashboard
  | matchView
  | battle
deriving DecidableEq, Repr

/-- Player profile record, from `interface Profile` in App.tsx.  The source
field `exists` is named `exists'` here because `exists` is a Lean keyword. -/
structure Profile where
  element : ElementType
  luckyNumber : Int
  xp : Int
  level : Int
  energy : Int
  winStreak : Int
  lastFortuneTime : Int
  exists' : Bool
deriving DecidableEq, Repr

/-- Match outcome record, from `interface MatchResult` in App.tsx. -/
structure MatchResult where
  winner : String
  timestamp : Int
  player1Element : ElementType
  player2Element : ElementType
deriving DecidableEq, Repr

/-- The fixed element list `ELEMENTS` from App.tsx. -/
def ELEMENTS : List ElementType :=
  [ElementType.Fire, ElementType.Water, ElementType.Air, ElementType.Earth]

/-- `ELEMENTS[i]` for the random opponent draw `ELEMENTS[Math.floor(Math.random() * 4)]`. -/
def elementAt (i : Fin 4) : ElementType :=
  ELEMENTS.get ⟨i.val, i.isLt⟩

/-- State owned by the `useContract` hook: the in-memory profile, the last
match result, the tx-pending flag, plus the localStorage contents (an
association list keyed by the storage key) and the console error log. -/
structure EngineState where
  profile : Option Profile
  lastMatchResult : Option MatchResult
  txPending : Bool
  store : List (String × Profile)
  log : List String
deriving DecidableEq, Repr

/-- `localStorage.setItem`: overwrite the entry for `key`. -/
def storeSet (key : String) (value : Profile) (s : List (String × Profile)) :
    List (String × Profile) :=
  (key, value) :: s.filter (fun kv => kv.1 != key)

/-- `localStorage.getItem` followed by parse: first entry for `key`. -/
def storeGet (key : String) (s : List (String × Profile)) : Option Profile :=
  (s.find? (fun kv => kv.1 == key)).map (fun kv => kv.2)

/-- `createProfile(element)` from `useContract`.  `lucky` is the drawn value
`Math.floor(Math.random() * 100)`.  `hasProvider` is whether `window.ethereum`
is present; `submitThrows` is whether the `eth_sendTransaction` request
throws; `saveThrows` is whether `localStorage.setItem` throws.  The source
wraps the submission, the local profile creation and the persistence in one
`try` whose `catch` only logs, and clears `txPending` afterwards. -/
def createProfile (address : Option String) (st : EngineState)
    (element : ElementType) (lucky : Int)
    (hasProvider submitThrows saveThrows : Bool) : EngineState :=
  match address with
  | none => st
  | some addr =>
    let st1 := { st with txPending := true }
    if hasProvider && submitThrows then
      { st1 with log := "Failed to create profile" :: st1.log, txPending := false }
    else
      let newProfile : Profile :=
        { element := element
          luckyNumber := lucky + 1
          xp := 0
          level := 1
          energy := 100
          winStreak := 0
          lastFortuneTime := 0
          exists' := true }
      let st2 := { st1 with profile := some newProfile }
      if saveThrows then
        { st2 with log := "Failed to create profile" :: st2.log, txPending := false }
      else
        { st2 with store := storeSet ("astro_profile_" ++ addr) newProfile st2.store,
                   txPending := false }

/-- `claimDailyFortune()` from `useContract`.  `now` is `Date.now()`;
`fortuneRand` is the drawn value `Math.floor(Math.random() * 50)`, so the
awarded fortune is `fortuneRand + 10`. -/
def claimDailyFortune (now : Int) (address : Option String) (st : EngineState)
    (fortuneRand : Int) (hasProvider submitThrows saveThrows : Bool) : EngineState :=
  match address, st.profile with
  | some addr, some profile =>
    let st1 := { st with txPending := true }
    if hasProvider && submitThrows then
      { st1 with log := "Failed to claim fortune" :: st1.log, txPending := false }
    else
      let fortune := fortuneRand + 10
      let updatedProfile : Profile :=
        { profile with
          xp := profile.xp + fortune
          level := Int.fdiv (profile.xp + fortune) 100 + 1
          lastFortuneTime := now }
      let st2 := { st1 with profile := some updatedProfile }
      if saveThrows then
        { st2 with log := "Failed to claim fortune" :: st2.log, txPending := false }
      else
        { st2 with store := storeSet ("astro_profile_" ++ addr) updatedProfile st2.store,
                   txPending := false }
  | _, _ => st

/-- `initiateMatch(opponent)` from `useContract`.  `oppIdx` is the drawn index
`Math.floor(Math.random() * 4)` into `ELEMENTS`; `userWins` is the coin flip
`Math.random() > 0.5`; `now` is `Date.now()`. -/
def initiateMatch (now : Int) (address : Option String) (st : EngineState)
    (opponent : String) (oppIdx : Fin 4) (userWins : Bool)
    (hasProvider submitThrows saveThrows : Bool) : EngineState :=
  match address, st.profile with
  | some addr, some profile =>
    let st1 := { st with txPending := true }
    if hasProvider && submitThrows then
      { st1 with log := "Failed to initiate match" :: st1.log, txPending := false }
    else
      let opponentElement := elementAt oppIdx
      let xpGained : Int := if userWins then 25 else 5
      let result : MatchResult :=
        { winner := if userWins then addr else opponent
          timestamp := now
          player1Element := profile.element
          player2Element := opponentElement }
      let st2 := { st1 with lastMatchResult := some result }
      let updatedProfile : Profile :=
        { profile with
          xp := profile.xp + xpGained
          level := Int.fdiv (profile.xp + xpGained) 100 + 1
          winStreak := if userWins then profile.winStreak + 1 else 0
          energy := max 0 (profile.energy - 10) }
      let st3 := { st2 with profile := some updatedProfile }
      if saveThrows then
        { st3 with log := "Failed to initiate match" :: st3.log, txPending := false }
      else
        { st3 with store := storeSet ("astro_profile_" ++ addr) updatedProfile st3.store,
                   txPending := false }
  | _, _ => st

/-- `canClaimFortune` derived flag:
`profile ? Date.now() - profile.lastFortuneTime > 24*60*60*1000 : false`. -/
def canClaimFortune (now : Int) (profile : Option Profile) : Bool :=
  match profile with
  | some p => decide (now - p.lastFortuneTime > 24 * 60 * 60 * 1000)
  | none => false

/-- One click on the Daily Fortune `ActionButton`: the button is
`disabled={!canClaimFortune || txPending}` and its `onClick` is
`claimDailyFortune`; clicking a disabled button does nothing. -/
def dailyFortuneClick (now : Int) (address : Option String) (st : EngineState)
    (fortuneRand : Int) (hasProvider submitThrows saveThrows : Bool) : EngineState :=
  if !(canClaimFortune now st.profile) || st.txPending then st
  else claimDailyFortune now address st fortuneRand hasProvider submitThrows saveThrows

/-- The character class `[a-fA-F0-9]` of the opponent-address regex. -/
def isHexDigit (c : Char) : Bool :=
  (decide ('a' ≤ c) && decide (c ≤ 'f')) ||
  (decide ('A' ≤ c) && decide (c ≤ 'F')) ||
  (decide ('0' ≤ c) && decide (c ≤ '9'))

/-- The test `opponentAddress.match(/^0x[a-fA-F0-9]{40}$/)` from `handleMatch`
and the Challenge button: the string is `0x` followed by exactly 40 hex
digits.  (The `opponentAddress &&` truthiness check is subsumed: the empty
string does not match.) -/
def isValidAddress (s : String) : Bool :=
  match s.data with
  | '0' :: 'x' :: rest => rest.length == 40 && rest.all isHexDigit
  | _ => false

/-- `handleMatch` from `App`: calls `initiateMatch(opponentAddress)` only when
the address matches the identity format, otherwise does nothing. -/
def handleMatch (now : Int) (address : Option String) (st : EngineState)
    (opponentAddress : String) (oppIdx : Fin 4) (userWins : Bool)
    (hasProvider submitThrows saveThrows : Bool) : EngineState :=
  if isValidAddress opponentAddress then
    initiateMatch now address st opponentAddress oppIdx userWins
      hasProvider submitThrows saveThrows
  else st

/-- `profile?.exists` optional chaining: `false` when the profile is null. -/
def profileExistsFlag (profile : Option Profile) : Bool :=
  match profile with
  | some p => p.exists'
  | none => false

/-- The view-determining `useEffect` from `App` as a pure resolver: cascades
over no-identity, loading, profile-absent, battle-entry and
dashboard-fallback, and otherwise leaves the view unchanged. -/
def resolveView (address : Option String) (isLoading : Bool)
    (profile : Option Profile) (lastMatchResult : Option MatchResult)
    (view : GameView) : GameView :=
  match address with
  | none => GameView.connect
  | some _ =>
    if isLoading then GameView.connect
    else if !(profileExistsFlag profile) then GameView.create
    else if lastMatchResult.isSome && view = GameView.matchView then GameView.battle
    else if view = GameView.connect || view = GameView.create then GameView.dashboard
    else view

/-- The views the application can reach: the initial `useState('connect')`,
any run of the view `useEffect` (with arbitrary session/profile/match
inputs), and the battle screen's Continue button (`setView('dashboard')`). -/
inductive ReachableView : GameView → Prop
  | init : ReachableView GameView.connect
  | effect (address : Option String) (isLoading : Bool) (profile : Option Profile)
      (lastMatchResult : Option MatchResult) (v : GameView) :
      ReachableView v → ReachableView (resolveView address isLoading profile lastMatchResult v)
  | continueButton (v : GameView) : ReachableView v → ReachableView GameView.dashboard

/-- The per-call inputs of one `initiateMatch` invocation: clock value,
opponent string, the two random draws, and the effect outcomes. -/
structure MatchCall where
  now : Int
  opponent : String
  oppIdx : Fin 4
  userWins : Bool
  hasProvider : Bool
  submitThrows : Bool
  saveThrows : Bool

/-- Run a sequence of `initiateMatch` calls. -/
def runMatches (address : Option String) (st : EngineState) :
    List MatchCall → EngineState
  | [] => st
  | c :: cs =>
      runMatches address
        (initiateMatch c.now address st c.opponent c.oppIdx c.userWins
          c.hasProvider c.submitThrows c.saveThrows) cs

/-- The level invariant of §3 of the spec: `level == floor(xp/100) + 1`. -/
def levelInv (p : Profile) : Prop :=
  p.level = Int.fdiv p.xp 100 + 1

/-- Sample profile used by concrete counterexamples and witnesses. -/
def pDemo : Profile :=
  { element := ElementType.Water
    luckyNumber := 7
    xp := 50
    level := 1
    energy := 80
    winStreak := 2
    lastFortuneTime := 5
    exists' := true }

/-- Engine state holding `pDemo`, nothing pending, empty store and log. -/
def stDemo : EngineState :=
  { profile := some pDemo
    lastMatchResult := none
    txPending := false
    store := []
    log := [] }

/-- Engine state with no profile. -/
def stEmpty : EngineState :=
  { profile := none
    lastMatchResult := none
    txPending := false
    store := []
    log := [] }

/-- Profile of end-to-end scenario 4: `energy=50, winStreak=3`. -/
def pClash : Profile :=
  { element := ElementType.Water
    luckyNumber := 7
    xp := 50
    level := 1
    energy := 50
    winStreak := 3
    lastFortuneTime := 5
    exists' := true }

/-- Engine state holding `pClash`. -/
def stClash : EngineState :=
  { profile := some pClash
    lastMatchResult := none
    txPending := false
    store := []
    log := [] }

/-- The profile after `createProfile` is either untouched (submission threw)
or the freshly synthesized profile. -/
theorem createProfile_profile_cases (a : String) (st : EngineState) (e : ElementType)
    (lucky : Int) (hp sb sk : Bool) :
    (createProfile (some a) st e lucky hp sb sk).profile = st.profile ∨
    (createProfile (some a) st e lucky hp sb sk).profile =
      some { element := e, luckyNumber := lucky + 1, xp := 0, level := 1, energy := 100,
             winStreak := 0, lastFortuneTime := 0, exists' := true } := by
  cases hp <;> cases sb <;> cases sk <;> simp [createProfile]

/-- `claimDailyFortune` with no profile loaded is a no-op. -/
theorem claimDailyFortune_noProfile (now : Int) (address : Option String)
    (st : EngineState) (fr : Int) (hp sb sk : Bool) (h : st.profile = none) :
    claimDailyFortune now address st fr hp sb sk = st := by
  cases address <;> simp [claimDailyFortune, h]

/-- The profile after `claimDailyFortune` is either untouched (submission
threw) or the fortune-updated profile. -/
theorem claimDailyFortune_profile_cases (now : Int) (a : String) (st : EngineState)
    (fr : Int) (hp sb sk : Bool) (p : Profile) (h : st.profile = some p) :
    (claimDailyFortune now (some a) st fr hp sb sk).profile = some p ∨
    (claimDailyFortune now (some a) st fr hp sb sk).profile =
      some { p with xp := p.xp + (fr + 10),
                    level := Int.fdiv (p.xp + (fr + 10)) 100 + 1,
                    lastFortuneTime := now } := by
  cases hp <;> cases sb <;> cases sk <;> simp [claimDailyFortune, h]

/-- When the submission does not throw, `claimDailyFortune` always commits the
fortune-updated profile in memory. -/
theorem claimDailyFortune_profile_noThrow (now : Int) (a : String) (st : EngineState)
    (fr : Int) (hp sk : Bool) (p : Profile) (h : st.profile = some p) :
    (claimDailyFortune now (some a) st fr hp false sk).profile =
      some { p with xp := p.xp + (fr + 10),
                    level := Int.fdiv (p.xp + (fr + 10)) 100 + 1,
                    lastFortuneTime := now } := by
  cases hp <;> cases sk <;> simp [claimDailyFortune, h]

/-- `initiateMatch` with no profile loaded is a no-op. -/
theorem initiateMatch_noProfile (now : Int) (address : Option String)
    (st : EngineState) (opp : String) (oppIdx : Fin 4) (w hp sb sk : Bool)
    (h : st.profile = none) :
    initiateMatch now address st opp oppIdx w hp sb sk = st := by
  cases address <;> simp [initiateMatch, h]

/-- The profile after `initiateMatch` is either untouched (submission threw)
or the match-updated profile. -/
theorem initiateMatch_profile_cases (now : Int) (a opp : String) (st : EngineState)
    (oppIdx : Fin 4) (w hp sb sk : Bool) (p : Profile) (h : st.profile = some p) :
    (initiateMatch now (some a) st opp oppIdx w hp sb sk).profile = some p ∨
    (initiateMatch now (some a) st opp oppIdx w hp sb sk).profile =
      some { p with xp := p.xp + (if w then 25 else 5),
                    level := Int.fdiv (p.xp + (if w then 25 else 5)) 100 + 1,
                    winStreak := if w then p.winStreak + 1 else 0,
                    energy := max 0 (p.energy - 10) } := by
  cases hp <;> cases sb <;> cases sk <;> cases w <;> simp [initiateMatch, h]

/-- When the submission does not throw, `initiateMatch` always commits the
match-updated profile in memory. -/
theorem initiateMatch_profile_noThrow (now : Int) (a opp : String) (st : EngineState)
    (oppIdx : Fin 4) (w hp sk : Bool) (p : Profile) (h : st.profile = some p) :
    (initiateMatch now (some a) st opp oppIdx w hp false sk).profile =
      some { p with xp := p.xp + (if w then 25 else 5),
                    level := Int.fdiv (p.xp + (if w then 25 else 5)) 100 + 1,
                    winStreak := if w then p.winStreak + 1 else 0,
                    energy := max 0 (p.energy - 10) } := by
  cases hp <;> cases sk <;> cases w <;> simp [initiateMatch, h]

/-- One `initiateMatch` call keeps the profile present and its energy
non-negative and non-increasing. -/
theorem initiateMatch_energy_step (now : Int) (a opp : String) (st : EngineState)
    (oppIdx : Fin 4) (w hp sb sk : Bool) (p : Profile)
    (h : st.profile = some p) (h0 : 0 ≤ p.energy) :
    ∃ q, (initiateMatch now (some a) st opp oppIdx w hp sb sk).profile = some q ∧
      0 ≤ q.energy ∧ q.energy ≤ p.energy := by
  rcases initiateMatch_profile_cases now a opp st oppIdx w hp sb sk p h with hc | hc
  · exact ⟨p, hc, h0, le_refl _⟩
  · refine ⟨_, hc, ?_, ?_⟩
    · show (0 : Int) ≤ max 0 (p.energy - 10)
      omega
    · show max 0 (p.energy - 10) ≤ p.energy
      omega

/-- Running matches over an appended list composes. -/
theorem runMatches_append (a : Option String) (l1 l2 : List MatchCall)
    (st : EngineState) :
    runMatches a st (l1 ++ l2) = runMatches a (runMatches a st l1) l2 := by
  induction l1 generalizing st with
  | nil => rfl
  | cons c cs ih =>
      simp only [List.cons_append, runMatches]
      exact ih _

/-- A whole sequence of `initiateMatch` calls keeps the profile present and
its energy non-negative and bounded by the starting energy. -/
theorem runMatches_energy (a : String) (l : List MatchCall) (st : EngineState)
    (p : Profile) (h : st.profile = some p) (h0 : 0 ≤ p.energy) :
    ∃ q, (runMatches (some a) st l).profile = some q ∧
      0 ≤ q.energy ∧ q.energy ≤ p.energy := by
  induction l generalizing st p with
  | nil => exact ⟨p, h, h0, le_refl _⟩
  | cons c cs ih =>
      obtain ⟨q, hq, hq0, hqle⟩ :=
        initiateMatch_energy_step c.now a c.opponent st c.oppIdx c.userWins
          c.hasProvider c.submitThrows c.saveThrows p h h0
      obtain ⟨r, hr, hr0, hrle⟩ := ih _ q hq hq0
      exact ⟨r, by simpa [runMatches] using hr, hr0, le_trans hrle hqle⟩

/-- Case analysis of the view resolver with an identity present: the result is
`connect`, `create`, `dashboard`, `battle` (and then only from the `matchView`
view), or the unchanged previous view. -/
theorem resolveView_cases (a : String) (isLoading : Bool) (profile : Option Profile)
    (m : Option MatchResult) (v : GameView) :
    resolveView (some a) isLoading profile m v = GameView.connect ∨
    resolveView (some a) isLoading profile m v = GameView.create ∨
    resolveView (some a) isLoading profile m v = GameView.dashboard ∨
    (resolveView (some a) isLoading profile m v = GameView.battle ∧ v = GameView.matchView) ∨
    resolveView (some a) isLoading profile m v = v := by
  simp only [resolveView]
  split
  · exact Or.inl rfl
  · split
    · exact Or.inr (Or.inl rfl)
    · split
      · rename_i h
        exact Or.inr (Or.inr (Or.inr (Or.inl ⟨rfl, by simpa using (Bool.and_eq_true_iff.mp h).2⟩)))
      · split
        · exact Or.inr (Or.inr (Or.inl rfl))
        · exact Or.inr (Or.inr (Or.inr (Or.inr rfl)))

/-- The resolver preserves avoidance of the `matchView` and `battle` views. -/
theorem resolveView_safe (address : Option String) (isLoading : Bool)
    (profile : Option Profile) (m : Option MatchResult) (v : GameView)
    (h1 : v ≠ GameView.matchView) (h2 : v ≠ GameView.battle) :
    resolveView address isLoading profile m v ≠ GameView.matchView ∧
    resolveView address isLoading profile m v ≠ GameView.battle := by
  cases address with
  | none => simp [resolveView]
  | some a =>
    rcases resolveView_cases a isLoading profile m v with h | h | h | ⟨_, hv⟩ | h
    · rw [h]; exact ⟨by simp, by simp⟩
    · rw [h]; exact ⟨by simp, by simp⟩
    · rw [h]; exact ⟨by simp, by simp⟩
    · exact absurd hv h1
    · rw [h]; exact ⟨h1, h2⟩

/-- Claim C1 counterexample: with a provider present and a throwing
submission, `createProfile` leaves the profile unset and the store empty
(while on submission success it sets the profile), and `initiateMatch`
records no MatchResult (while on success it records one) — so the local
optimistic transition does not "still occur exactly as on submission
success". -/
theorem claim_C1_counterexample :
    (createProfile (some "0xA") stEmpty ElementType.Fire 41 true true false).profile = none ∧
    (createProfile (some "0xA") stEmpty ElementType.Fire 41 true true false).store = [] ∧
    (createProfile (some "0xA") stEmpty ElementType.Fire 41 true false false).profile ≠ none ∧
    (initiateMatch 5 (some "0xA") stClash "0xB" ⟨0, by decide⟩ false true true
        false).lastMatchResult = none ∧
    (initiateMatch 5 (some "0xA") stClash "0xB" ⟨0, by decide⟩ false true false
        false).lastMatchResult ≠ none := by
  decide

/-- Claim C1 (amended): a ledger submission failure is caught and logged only
and nothing already applied is rolled back, but it does block the local
optimistic transition: when the submission throws, the profile update, the
persistence and the MatchResult recording are all skipped — the state is
unchanged except for the appended error-log entry and the cleared pending
flag.  The local transition occurs exactly when no provider is present or the
submission succeeds, and the no-provider behavior equals the
submission-success behavior. -/
theorem claim_C1 (now lucky fr : Int) (a opp : String) (st : EngineState)
    (e : ElementType) (oppIdx : Fin 4) (w sk sb : Bool) (p : Profile)
    (hprof : st.profile = some p) :
    ((createProfile (some a) st e lucky true true sk).profile = st.profile ∧
     (createProfile (some a) st e lucky true true sk).store = st.store ∧
     (createProfile (some a) st e lucky true true sk).log =
       "Failed to create profile" :: st.log ∧
     (createProfile (some a) st e lucky true true sk).txPending = false) ∧
    ((claimDailyFortune now (some a) st fr true true sk).profile = st.profile ∧
     (claimDailyFortune now (some a) st fr true true sk).store = st.store ∧
     (claimDailyFortune now (some a) st fr true true sk).log =
       "Failed to claim fortune" :: st.log ∧
     (claimDailyFortune now (some a) st fr true true sk).txPending = false) ∧
    ((initiateMatch now (some a) st opp oppIdx w true true sk).profile = st.profile ∧
     (initiateMatch now (some a) st opp oppIdx w true true sk).store = st.store ∧
     (initiateMatch now (some a) st opp oppIdx w true true sk).lastMatchResult =
       st.lastMatchResult ∧
     (initiateMatch now (some a) st opp oppIdx w true true sk).log =
       "Failed to initiate match" :: st.log ∧
     (initiateMatch now (some a) st opp oppIdx w true true sk).txPending = false) ∧
    (createProfile (some a) st e lucky false sb sk =
       createProfile (some a) st e lucky true false sk ∧
     claimDailyFortune now (some a) st fr false sb sk =
       claimDailyFortune now (some a) st fr true false sk ∧
     initiateMatch now (some a) st opp oppIdx w false sb sk =
       initiateMatch now (some a) st opp oppIdx w true false sk) := by
  refine ⟨⟨?_, ?_, ?_, ?_⟩, ⟨?_, ?_, ?_, ?_⟩, ⟨?_, ?_, ?_, ?_, ?_⟩, ⟨?_, ?_, ?_⟩⟩ <;>
    simp [createProfile, claimDailyFortune, initiateMatch, hprof]

/-- Claim C1 witness: on a throwing submission the profile is unchanged. -/
theorem claim_C1_witness :
    (createProfile (some "0xA") stDemo ElementType.Fire 41 true true false).profile =
      stDemo.profile :=
  (claim_C1 0 41 20 "0xA" "0xB" stDemo ElementType.Fire ⟨0, by decide⟩ false false false
      pDemo rfl).1.1

/-- Claim C2 counterexample: from a state whose profile has `exists=true` (and
xp 50, element Water), `createProfile` mutates the profile — afterwards the
xp is 0 and the element is Fire, so the existing profile was not left
unchanged. -/
theorem claim_C2_counterexample :
    pDemo.exists' = true ∧
    stDemo.profile = some pDemo ∧
    ((createProfile (some "0xA") stDemo ElementType.Fire 41 false false
        false).profile).map Profile.xp = some 0 ∧
    ((createProfile (some "0xA") stDemo ElementType.Fire 41 false false
        false).profile).map Profile.element = some ElementType.Fire ∧
    (createProfile (some "0xA") stDemo ElementType.Fire 41 false false false).profile ≠
      some pDemo := by
  decide

/-- Claim C2 (amended): `createProfile` performs no existence check: invoked
when the current profile has `exists=true` (and the submission does not
throw), it replaces the profile — in memory and in the store — with a fresh
profile (chosen element, new lucky number, xp 0, level 1, energy 100,
winStreak 0, lastFortuneTime 0, exists true); no InvalidState is signalled.
The creation flow is only guarded at the view level, which shows the create
view only when the profile does not exist. -/
theorem claim_C2 (a : String) (st : EngineState) (e : ElementType) (lucky : Int)
    (hp : Bool) (p : Profile) (hprof : st.profile = some p) (hex : p.exists' = true) :
    (createProfile (some a) st e lucky hp false false).profile =
      some { element := e, luckyNumber := lucky + 1, xp := 0, level := 1, energy := 100,
             winStreak := 0, lastFortuneTime := 0, exists' := true } ∧
    storeGet ("astro_profile_" ++ a) (createProfile (some a) st e lucky hp false false).store =
      some { element := e, luckyNumber := lucky + 1, xp := 0, level := 1, energy := 100,
             winStreak := 0, lastFortuneTime := 0, exists' := true } := by
  cases hp <;> simp [createProfile, storeGet, storeSet]

/-- Claim C2 witness: overwriting `pDemo` (which has `exists=true`). -/
theorem claim_C2_witness :
    (createProfile (some "0xA") stDemo ElementType.Fire 41 false false false).profile =
      some { element := ElementType.Fire, luckyNumber := 41 + 1, xp := 0, level := 1,
             energy := 100, winStreak := 0, lastFortuneTime := 0, exists' := true } :=
  (claim_C2 "0xA" stDemo ElementType.Fire 41 false pDemo rfl rfl).1

/-- Claim C3: a Daily Fortune claim attempted when
`now - lastFortuneTime <= 24h` is rejected — `canClaimFortune` is false, the
claim button is disabled, so the click performs no state mutation at all —
and any claim whose submission does not throw sets `lastFortuneTime = now`,
so `canClaimFortune` evaluated immediately afterward is false. -/
theorem claim_C3 (now now2 fr fr2 : Int) (a a2 : String) (st st2 : EngineState)
    (p q : Profile) (hp sb sk hp2 sk2 : Bool)
    (h1 : st.profile = some p) (h2 : now - p.lastFortuneTime ≤ 24 * 60 * 60 * 1000)
    (h3 : st2.profile = some q) :
    dailyFortuneClick now (some a) st fr hp sb sk = st ∧
    canClaimFortune now2
      ((claimDailyFortune now2 (some a2) st2 fr2 hp2 false sk2).profile) = false := by
  constructor
  · have hc : canClaimFortune now st.profile = false := by
      rw [h1]
      simp only [canClaimFortune, decide_eq_false_iff_not]
      omega
    simp [dailyFortuneClick, hc]
  · rw [claimDailyFortune_profile_noThrow now2 a2 st2 fr2 hp2 sk2 q h3]
    simp only [canClaimFortune, decide_eq_false_iff_not]
    omega

/-- Claim C3 witness: with `lastFortuneTime = 5`, a claim attempt at time 10
is a no-op, and after a claim at time 99 the cooldown flag is off. -/
theorem claim_C3_witness :
    dailyFortuneClick 10 (some "0xA") stDemo 20 true false false = stDemo ∧
    canClaimFortune 99
      ((claimDailyFortune 99 (some "0xA") stDemo 20 false false false).profile) = false :=
  claim_C3 10 99 20 20 "0xA" "0xA" stDemo stDemo pDemo pDemo true false false false false
    rfl (by decide) rfl

/-- Claim C4 counterexample: when `localStorage.setItem` throws during
`claimDailyFortune`, the in-memory profile does NOT revert to the
pre-operation profile — it keeps the updated value (xp 50 → 80,
lastFortuneTime → now) while the store is unchanged, and the failure is only
logged, not surfaced. -/
theorem claim_C4_counterexample :
    (claimDailyFortune 1000000 (some "0xA") stDemo 20 false false true).profile ≠
      stDemo.profile ∧
    (claimDailyFortune 1000000 (some "0xA") stDemo 20 false false true).profile =
      some { pDemo with xp := 80, level := 1, lastFortuneTime := 1000000 } ∧
    (claimDailyFortune 1000000 (some "0xA") stDemo 20 false false true).store =
      stDemo.store := by
  decide

/-- Claim C4 (amended): if persisting the updated profile fails during a
mutating operation, the operation is not reverted: the in-memory profile
keeps the newly computed post-operation value (the profile is set before the
store write), the store is left unchanged, the failure is caught and logged
to the console rather than surfaced to the caller, and the pending flag is
cleared; for `initiateMatch` the MatchResult has also already been
recorded. -/
theorem claim_C4 (now lucky fr : Int) (a opp : String) (st : EngineState)
    (e : ElementType) (oppIdx : Fin 4) (w hp : Bool) (p : Profile)
    (hprof : st.profile = some p) :
    ((createProfile (some a) st e lucky hp false true).profile =
       some { element := e, luckyNumber := lucky + 1, xp := 0, level := 1, energy := 100,
              winStreak := 0, lastFortuneTime := 0, exists' := true } ∧
     (createProfile (some a) st e lucky hp false true).store = st.store ∧
     (createProfile (some a) st e lucky hp false true).log =
       "Failed to create profile" :: st.log ∧
     (createProfile (some a) st e lucky hp false true).txPending = false) ∧
    ((claimDailyFortune now (some a) st fr hp false true).profile =
       some { p with xp := p.xp + (fr + 10),
                     level := Int.fdiv (p.xp + (fr + 10)) 100 + 1,
                     lastFortuneTime := now } ∧
     (claimDailyFortune now (some a) st fr hp false true).store = st.store ∧
     (claimDailyFortune now (some a) st fr hp false true).log =
       "Failed to claim fortune" :: st.log ∧
     (claimDailyFortune now (some a) st fr hp false true).txPending = false) ∧
    ((initiateMatch now (some a) st opp oppIdx w hp false true).profile =
       some { p with xp := p.xp + (if w then 25 else 5),
                     level := Int.fdiv (p.xp + (if w then 25 else 5)) 100 + 1,
                     winStreak := if w then p.winStreak + 1 else 0,
                     energy := max 0 (p.energy - 10) } ∧
     (initiateMatch now (some a) st opp oppIdx w hp false true).store = st.store ∧
     (initiateMatch now (some a) st opp oppIdx w hp false true).lastMatchResult =
       some { winner := if w then a else opp, timestamp := now,
              player1Element := p.element, player2Element := elementAt oppIdx } ∧
     (initiateMatch now (some a) st opp oppIdx w hp false true).log =
       "Failed to initiate match" :: st.log ∧
     (initiateMatch now (some a) st opp oppIdx w hp false true).txPending = false) := by
  cases hp <;> cases w <;>
    simp [createProfile, claimDailyFortune, initiateMatch, hprof]

/-- Claim C4 witness: a failed store write leaves the store unchanged while
the in-memory profile was already updated. -/
theorem claim_C4_witness :
    (createProfile (some "0xA") stDemo ElementType.Fire 41 false false true).store =
      stDemo.store :=
  (claim_C4 0 41 20 "0xA" "0xB" stDemo ElementType.Fire ⟨0, by decide⟩ false false
      pDemo rfl).1.2.1

/-- Claim C5: every profile produced or updated by `createProfile`,
`claimDailyFortune` or `initiateMatch` satisfies `level = floor(xp/100) + 1`,
provided the profile it started from did (each xp-changing transition
recomputes the level in the same update; `createProfile` establishes the
invariant outright). -/
theorem claim_C5 (now lucky fr : Int) (a opp : String) (e : ElementType)
    (oppIdx : Fin 4) (w hp sb sk : Bool) (st : EngineState)
    (hinv : ∀ p, st.profile = some p → levelInv p) :
    (∀ q, (createProfile (some a) st e lucky hp sb sk).profile = some q → levelInv q) ∧
    (∀ q, (claimDailyFortune now (some a) st fr hp sb sk).profile = some q → levelInv q) ∧
    (∀ q, (initiateMatch now (some a) st opp oppIdx w hp sb sk).profile = some q → levelInv q) := by
  refine ⟨?_, ?_, ?_⟩
  · intro q hq
    rcases createProfile_profile_cases a st e lucky hp sb sk with hc | hc
    · exact hinv q (hc ▸ hq)
    · rw [hc] at hq
      rw [← Option.some.inj hq]
      show (1 : Int) = Int.fdiv 0 100 + 1
      decide
  · intro q hq
    rcases hsp : st.profile with _ | p
    · rw [claimDailyFortune_noProfile now (some a) st fr hp sb sk hsp, hsp] at hq
      simp at hq
    · rcases claimDailyFortune_profile_cases now a st fr hp sb sk p hsp with hc | hc
      · rw [hc] at hq
        rw [← Option.some.inj hq]
        exact hinv p hsp
      · rw [hc] at hq
        rw [← Option.some.inj hq]
        simp [levelInv]
  · intro q hq
    rcases hsp : st.profile with _ | p
    · rw [initiateMatch_noProfile now (some a) st opp oppIdx w hp sb sk hsp, hsp] at hq
      simp at hq
    · rcases initiateMatch_profile_cases now a opp st oppIdx w hp sb sk p hsp with hc | hc
      · rw [hc] at hq
        rw [← Option.some.inj hq]
        exact hinv p hsp
      · rw [hc] at hq
        rw [← Option.some.inj hq]
        simp [levelInv]

/-- Claim C5 witness: the profile after a losing match from `pClash` satisfies
the level invariant. -/
theorem claim_C5_witness :
    levelInv { pClash with xp := pClash.xp + 5,
                           level := Int.fdiv (pClash.xp + 5) 100 + 1,
                           winStreak := 0,
                           energy := max 0 (pClash.energy - 10) } :=
  (claim_C5 5 41 20 "0xA" "0xB" ElementType.Fire ⟨0, by decide⟩ false false false false
      stClash (by intro p hp; rw [← Option.some.inj hp]; unfold levelInv; decide)).2.2
    _ (by decide)

/-- Claim C6: along any sequence of `initiateMatch` calls from a profile with
non-negative energy, the energy is monotonically non-increasing (the energy
after `l1 ++ l2` is at most the energy after `l1`) and never negative, and
each completed match sets the energy to `max 0 (energy - 10)`. -/
theorem claim_C6 (a opp : String) (st : EngineState) (p : Profile)
    (l1 l2 : List MatchCall) (now : Int) (oppIdx : Fin 4) (w hp sk : Bool)
    (h : st.profile = some p) (h0 : 0 ≤ p.energy) :
    (∃ q r, (runMatches (some a) st l1).profile = some q ∧
        (runMatches (some a) st (l1 ++ l2)).profile = some r ∧
        0 ≤ r.energy ∧ r.energy ≤ q.energy ∧ q.energy ≤ p.energy) ∧
    ((initiateMatch now (some a) st opp oppIdx w hp false sk).profile).map Profile.energy =
      some (max 0 (p.energy - 10)) := by
  constructor
  · obtain ⟨q, hq, hq0, hqp⟩ := runMatches_energy a l1 st p h h0
    obtain ⟨r, hr, hr0, hrq⟩ := runMatches_energy a l2 _ q hq hq0
    refine ⟨q, r, hq, ?_, hr0, hrq, hqp⟩
    rw [runMatches_append]
    exact hr
  · rw [initiateMatch_profile_noThrow now a opp st oppIdx w hp sk p h]
    rfl

/-- Claim C6 witness: a completed match from `pClash` (energy 50) sets the
energy to `max 0 (50 - 10)`. -/
theorem claim_C6_witness :
    ((initiateMatch 5 (some "0xA") stClash "0xB" ⟨0, by decide⟩ false false false
        false).profile).map Profile.energy = some (max 0 (pClash.energy - 10)) :=
  (claim_C6 "0xA" "0xB" stClash pClash [] [] 5 ⟨0, by decide⟩ false false false
      rfl (by decide)).2

/-- Claim C7: a match resolving as a win awards `xp += 25` and increments the
win streak; a loss awards `xp += 5` and resets the streak to 0; in both cases
the level is recomputed from the new xp, the energy drops by 10 clamped at 0,
and a MatchResult (with the correct winner, timestamp and elements) is
recorded. -/
theorem claim_C7 (now : Int) (a opp : String) (st : EngineState) (p : Profile)
    (oppIdx : Fin 4) (hp : Bool) (h : st.profile = some p) :
    (initiateMatch now (some a) st opp oppIdx true hp false false).profile =
      some { p with xp := p.xp + 25, level := Int.fdiv (p.xp + 25) 100 + 1,
                    winStreak := p.winStreak + 1, energy := max 0 (p.energy - 10) } ∧
    (initiateMatch now (some a) st opp oppIdx true hp false false).lastMatchResult =
      some { winner := a, timestamp := now, player1Element := p.element,
             player2Element := elementAt oppIdx } ∧
    (initiateMatch now (some a) st opp oppIdx false hp false false).profile =
      some { p with xp := p.xp + 5, level := Int.fdiv (p.xp + 5) 100 + 1,
                    winStreak := 0, energy := max 0 (p.energy - 10) } ∧
    (initiateMatch now (some a) st opp oppIdx false hp false false).lastMatchResult =
      some { winner := opp, timestamp := now, player1Element := p.element,
             player2Element := elementAt oppIdx } := by
  simp [initiateMatch, h]

/-- Claim C7 witness: end-to-end scenario 4 — from `energy=50, winStreak=3`, a
loss yields `xp += 5`, recomputed level, `winStreak = 0`, `energy = 40`. -/
theorem claim_C7_witness :
    (initiateMatch 5 (some "0xA") stClash "0xB" ⟨0, by decide⟩ false false false false).profile =
      some { pClash with xp := pClash.xp + 5, level := Int.fdiv (pClash.xp + 5) 100 + 1,
                         winStreak := 0, energy := max 0 (pClash.energy - 10) } :=
  (claim_C7 5 "0xA" "0xB" stClash pClash ⟨0, by decide⟩ false rfl).2.2.1

/-- Claim C8: the view resolver's precedence — no identity gives `connect`
regardless of the other inputs; identity with loading gives `connect`;
identity, not loading, and an absent profile (`exists=false` or null) gives
`create`. -/
theorem claim_C8 (a : String) (isLoading : Bool) (p p' : Option Profile)
    (m : Option MatchResult) (v : GameView)
    (hp : profileExistsFlag p' = false) :
    resolveView none isLoading p m v = GameView.connect ∧
    resolveView (some a) true p m v = GameView.connect ∧
    resolveView (some a) false p' m v = GameView.create := by
  refine ⟨rfl, rfl, ?_⟩
  simp [resolveView, hp]

/-- Claim C8 witness: the three precedence rules at concrete inputs. -/
theorem claim_C8_witness :
    resolveView none false (some pDemo) none GameView.dashboard = GameView.connect ∧
    resolveView (some "0xA") true (some pDemo) none GameView.dashboard = GameView.connect ∧
    resolveView (some "0xA") false none none GameView.dashboard = GameView.create :=
  claim_C8 "0xA" false (some pDemo) none none GameView.dashboard rfl

/-- Claim C9: a match request with an opponent string not matching
`^0x[a-fA-F0-9]{40}$` is rejected by `handleMatch` before any submission: the
engine state (profile, store, last MatchResult, log) is completely
unchanged. -/
theorem claim_C9 (now : Int) (address : Option String) (st : EngineState)
    (opponentAddress : String) (oppIdx : Fin 4) (userWins hp sb sk : Bool)
    (h : isValidAddress opponentAddress = false) :
    handleMatch now address st opponentAddress oppIdx userWins hp sb sk = st := by
  simp [handleMatch, h]

/-- Claim C9 witness: rejection of `"not-an-address"` and of a 39-hex-digit
string, each leaving the state untouched. -/
theorem claim_C9_witness :
    isValidAddress "not-an-address" = false ∧
    handleMatch 0 (some "0xA") stDemo "not-an-address" ⟨0, by decide⟩
      true false false false = stDemo ∧
    isValidAddress "0x111111111111111111111111111111111111111" = false ∧
    handleMatch 0 (some "0xA") stDemo "0x111111111111111111111111111111111111111"
      ⟨0, by decide⟩ true false false false = stDemo :=
  ⟨by decide,
   claim_C9 0 (some "0xA") stDemo "not-an-address" ⟨0, by decide⟩
     true false false false (by decide),
   by decide,
   claim_C9 0 (some "0xA") stDemo "0x111111111111111111111111111111111111111"
     ⟨0, by decide⟩ true false false false (by decide)⟩

/-- Claim C10: in every reachable sequence of view transitions the view is
never `matchView`, and consequently the battle branch (which requires the
previous view to be `matchView`) never fires, so the view is never `battle`
either. -/
theorem claim_C10 (v : GameView) (h : ReachableView v) :
    v ≠ GameView.matchView ∧ v ≠ GameView.battle := by
  induction h with
  | init => exact ⟨by simp, by simp⟩
  | effect address isLoading profile m v _ ih =>
      exact resolveView_safe address isLoading profile m v ih.1 ih.2
  | continueButton v _ _ => exact ⟨by simp, by simp⟩

/-- Claim C10 witness: the initial view is reachable and is neither the match
view nor the battle view. -/
theorem claim_C10_witness :
    GameView.connect ≠ GameView.matchView ∧ GameView.connect ≠ GameView.battle :=
  claim_C10 GameView.connect ReachableView.init

end CosmicClash
